import Mathlib

/-
Verification development for the qarobo wake/idle gating layer.

Shallow embedding of:
  - patches/pipecat/processors/filters/wake_check_filter.py  (WakeCheckFilter)
  - patches/pipecat/audio/interruptions/keyword_interruption_strategy.py
  - src/sync/audio_notifier.py  (AudioNotifier)

Text is modelled as List Char (ASCII character classes for the Python
regex classes \b and \s and for IGNORECASE folding, and for str.strip
and str.split, which is what all configured phrases and the test
scenarios use).
-/

namespace Qarobo

/-! ### Python regex model

Every pattern compiled by the repository has the single shape

    re.compile(rb + rs.join(re.escape(word) for word in phrase.split()) + rb, re.IGNORECASE)

with rb the word-boundary anchor and rs the zero-or-more-whitespace
separator: words of the phrase, joined by optional whitespace, between
two word boundaries, matched case-insensitively.  Because every word
produced by str.split() is non-empty and contains no whitespace, the
greedy whitespace separator is deterministic (consume the maximal
whitespace run, then the next word must match), so the matcher below is
an exact functional model of re.search for these patterns: scan start
positions left to right and return the half-open span of the first
anchored match. -/

/-- Python word character for the \b anchor (ASCII model): [a-zA-Z0-9_]. -/
def isWordChar (c : Char) : Bool :=
  c.isAlphanum || c = '_'

/-- Python whitespace for the \s class and for str.split / str.strip (ASCII model). -/
def isSpaceChar (c : Char) : Bool :=
  c = ' ' || c = '\t' || c = '\n' || c = '\r' || c = '\x0b' || c = '\x0c'

/-- The \b anchor: true when exactly one side of the position is a word character. -/
def isBoundary (prev next : Option Char) : Bool :=
  (match prev with | some c => isWordChar c | none => false)
    != (match next with | some c => isWordChar c | none => false)

/-- Python str.split() with no argument: split on whitespace runs, dropping empty pieces. -/
def splitWsAux : List Char → List Char → List (List Char)
  | [], cur => if cur = [] then [] else [cur.reverse]
  | c :: cs, cur =>
    if isSpaceChar c then
      if cur = [] then splitWsAux cs [] else cur.reverse :: splitWsAux cs []
    else
      splitWsAux cs (c :: cur)

/-- Python str.split() with no argument. -/
def splitWs (l : List Char) : List (List Char) :=
  splitWsAux l []

/-- Python str.strip() with no argument: drop leading and trailing whitespace. -/
def pyStrip (l : List Char) : List Char :=
  ((l.dropWhile isSpaceChar).reverse.dropWhile isSpaceChar).reverse

/-- Consume the maximal run of whitespace (the greedy \s* separator);
returns the number of characters consumed and the remainder. -/
def matchSpaces : List Char → Nat × List Char
  | [] => (0, [])
  | c :: cs =>
    if isSpaceChar c then
      let r := matchSpaces cs
      (r.1 + 1, r.2)
    else (0, c :: cs)

/-- Match one literal word case-insensitively (IGNORECASE folds both sides);
returns the number of characters consumed and the remainder. -/
def matchWordCI : List Char → List Char → Option (Nat × List Char)
  | [], rest => some (0, rest)
  | _ :: _, [] => none
  | w :: ws, c :: cs =>
    if w.toLower = c.toLower then
      (matchWordCI ws cs).map (fun r => (r.1 + 1, r.2))
    else none

/-- Match the remaining words of a phrase, each preceded by the greedy
whitespace separator. -/
def matchRestWords : List (List Char) → List Char → Option (Nat × List Char)
  | [], rest => some (0, rest)
  | w :: ws, rest =>
    let sp := matchSpaces rest
    match matchWordCI w sp.2 with
    | none => none
    | some nw =>
      (matchRestWords ws nw.2).map (fun r => (sp.1 + nw.1 + r.1, r.2))

/-- Anchored match of a whole compiled phrase pattern at one position of
the text: word boundary, the words joined by optional whitespace, word
boundary.  prev is the character just before the position (none at the
start of the text).  Returns the number of characters consumed. -/
def matchPatternAt (words : List (List Char)) (prev : Option Char) (s : List Char) :
    Option Nat :=
  if isBoundary prev s.head? then
    match words with
    | [] => some 0
    | w :: ws =>
      match matchWordCI w s with
      | none => none
      | some nw =>
        match matchRestWords ws nw.2 with
        | none => none
        | some nr =>
          let consumed := nw.1 + nr.1
          let lastChar := if consumed = 0 then prev else (s.take consumed).getLast?
          if isBoundary lastChar nr.2.head? then some consumed else none
  else none

/-- re.search: try each start position left to right, return the
half-open span (start, end) of the first successful anchored match. -/
def searchFrom (words : List (List Char)) (prev : Option Char) (s : List Char)
    (idx : Nat) : Option (Nat × Nat) :=
  match matchPatternAt words prev s with
  | some n => some (idx, idx + n)
  | none =>
    match s with
    | [] => none
    | c :: cs => searchFrom words (some c) cs (idx + 1)

/-- re.search of one compiled phrase pattern over a text. -/
def searchPattern (words : List (List Char)) (s : List Char) : Option (Nat × Nat) :=
  searchFrom words none s 0

/-- The pattern loops of the repository: try compiled patterns in
configured order, the first pattern that matches anywhere wins. -/
def firstMatch : List (List (List Char)) → List Char → Option (Nat × Nat)
  | [], _ => none
  | pat :: pats, s =>
    match searchPattern pat s with
    | some r => some r
    | none => firstMatch pats s

/-! ### WakeCheckFilter

State machine of wake_check_filter.py.  One ParticipantState record per
participant (the dict self dot _participant_states); process_frame acts on
the record of the event participant and the timeout watchdog acts on every
record independently, so both are modelled per record.  Timestamps are
rationals (Python float time values in the test scenarios are exact
decimals).  Side effects of one call are collected in order in a list of
Output values.  Notifier calls are awaited coroutines that may raise; the
NotifyEnv argument gives the outcome of the wake and idle notifier call of
the current event, so that the try/except wrapper of process_frame can be
modelled faithfully (none = the call returns normally). -/

/-- WakeCheckFilter.WakeState. -/
inductive WakeState where
  | IDLE
  | AWAKE
deriving DecidableEq

/-- WakeCheckFilter.ParticipantState (participant_id omitted: records are
modelled per participant). -/
structure ParticipantState where
  state : WakeState
  accumulator : List Char
  last_activity_time : ℚ
deriving DecidableEq

/-- ParticipantState.__init__: IDLE, empty accumulator, creation time. -/
def mkParticipantState (t : ℚ) : ParticipantState :=
  ⟨WakeState.IDLE, [], t⟩

/-- Constructor arguments of WakeCheckFilter.  The notifiers are modelled
by whether they are configured; wake_timeout none means no watchdog task
is started. -/
structure Config where
  wake_phrases : List (List Char)
  idle_phrases : List (List Char)
  has_wake_notifier : Bool
  has_idle_notifier : Bool
  wake_timeout : Option ℚ
deriving DecidableEq

/-- self dot _wake_patterns: one compiled pattern per wake phrase. -/
def wakePatterns (cfg : Config) : List (List (List Char)) :=
  cfg.wake_phrases.map splitWs

/-- self dot _idle_patterns: one compiled pattern per idle phrase. -/
def idlePatterns (cfg : Config) : List (List (List Char)) :=
  cfg.idle_phrases.map splitWs

/-- A TranscriptionFrame for one participant: its text and the time.time()
value observed when it is processed. -/
structure Event where
  text : List Char
  time : ℚ
deriving DecidableEq

/-- Observable downstream effects of the gate, in order of occurrence. -/
inductive Output where
  | pushFrame : List Char → Output
  | notifyWake : Output
  | notifyIdle : Output
  | pushError : List Char → Output
deriving DecidableEq

/-- Outcome of the notifier calls available to the current event:
some msg models the awaited notify() raising an exception with message
msg, none models a normal return. -/
structure NotifyEnv where
  wakeFault : Option (List Char)
  idleFault : Option (List Char)
deriving DecidableEq

/-- Both notifier calls return normally. -/
def noFault : NotifyEnv := ⟨none, none⟩

/-- Body of the try block of WakeCheckFilter.process_frame for a
TranscriptionFrame.  On an exception the error value carries the message
and the participant record as already mutated at the raise point (Python
mutates the record in place before awaiting the notifier). -/
def process_frame_inner (cfg : Config) (env : NotifyEnv) (p : ParticipantState)
    (ev : Event) : Except (List Char × ParticipantState) (ParticipantState × List Output) :=
  let p1 : ParticipantState :=
    { p with last_activity_time := ev.time, accumulator := p.accumulator ++ ev.text }
  match p1.state with
  | WakeState.AWAKE =>
    match firstMatch (idlePatterns cfg) p1.accumulator with
    | some _ =>
      let p2 := { p1 with state := WakeState.IDLE, accumulator := [] }
      if cfg.has_idle_notifier then
        match env.idleFault with
        | some msg => Except.error (msg, p2)
        | none => Except.ok (p2, [Output.notifyIdle])
      else
        Except.ok (p2, [Output.pushFrame ev.text])
    | none => Except.ok (p1, [Output.pushFrame ev.text])
  | WakeState.IDLE =>
    match firstMatch (wakePatterns cfg) p1.accumulator with
    | some me =>
      let p2 := { p1 with state := WakeState.AWAKE }
      if cfg.has_wake_notifier then
        match env.wakeFault with
        | some msg => Except.error (msg, p2)
        | none =>
          let text_after_wake := pyStrip (p2.accumulator.drop me.2)
          let p3 := { p2 with accumulator := [] }
          if text_after_wake = [] then Except.ok (p3, [Output.notifyWake])
          else Except.ok (p3, [Output.notifyWake, Output.pushFrame text_after_wake])
      else
        let p3 := { p2 with accumulator := [] }
        Except.ok (p3, [Output.pushFrame (p2.accumulator.drop me.1)])
    | none => Except.ok (p1, [])

/-- The message prefix of the except clause of process_frame. -/
def wakeFilterErrText : String := "Error in wake word filter: "

/-- WakeCheckFilter.process_frame for a TranscriptionFrame: the try body,
with the except clause turning any exception into one pushed ErrorFrame
carrying the message. -/
def process_frame (cfg : Config) (env : NotifyEnv) (p : ParticipantState)
    (ev : Event) : ParticipantState × List Output :=
  match process_frame_inner cfg env p ev with
  | Except.ok r => r
  | Except.error e => (e.2, [Output.pushError (wakeFilterErrText.data ++ e.1)])

/-- Processing a sequence of events for one participant, each with the
notifier outcomes of its call; outputs are concatenated in order. -/
def process_list (cfg : Config) : ParticipantState → List (NotifyEnv × Event) →
    ParticipantState × List Output
  | p, [] => (p, [])
  | p, e :: rest =>
    let r := process_frame cfg e.1 p e.2
    let rr := process_list cfg r.1 rest
    (rr.1, r.2 ++ rr.2)

/-- One watchdog scan of one participant record in WakeCheckFilter
dot _check_timeout_loop at time now: only AWAKE records whose inactivity
reached the configured timeout transition to IDLE (the loop task only
exists when a timeout is configured). -/
def watchdog_tick (cfg : Config) (now : ℚ) (p : ParticipantState) :
    ParticipantState × List Output :=
  match cfg.wake_timeout with
  | none => (p, [])
  | some tmo =>
    if p.state = WakeState.AWAKE then
      if now - p.last_activity_time ≥ tmo then
        ({ p with state := WakeState.IDLE, accumulator := [] },
         if cfg.has_idle_notifier then [Output.notifyIdle] else [])
      else (p, [])
    else (p, [])

/-- One watchdog scan over the whole participant map (association list
keyed by participant id), in iteration order. -/
def watchdog_tick_all (cfg : Config) (now : ℚ) :
    List (List Char × ParticipantState) → List (List Char × ParticipantState) × List Output
  | [] => ([], [])
  | q :: rest =>
    let r := watchdog_tick cfg now q.2
    let rr := watchdog_tick_all cfg now rest
    ((q.1, r.1) :: rr.1, r.2 ++ rr.2)

/-! ### KeywordInterruptionStrategy

keyword_interruption_strategy.py: the compiled patterns have exactly the
same shape as the wake and idle patterns of the gate, so should_interrupt
reuses the same matcher (firstMatch over the compiled keyword patterns). -/

/-- KeywordInterruptionStrategy: the keyword list fixed at construction
and the accumulated text (self dot _text). -/
structure KeywordStrategyState where
  keywords : List (List Char)
  text : List Char
deriving DecidableEq

/-- KeywordInterruptionStrategy.__init__: compiles the patterns and sets
the accumulated text to the empty string. -/
def KeywordStrategyState.create (kws : List (List Char)) : KeywordStrategyState :=
  ⟨kws, []⟩

/-- append_text: concatenate onto the accumulated text. -/
def KeywordStrategyState.append_text (s : KeywordStrategyState) (t : List Char) :
    KeywordStrategyState :=
  { s with text := s.text ++ t }

/-- should_interrupt: true iff some compiled keyword pattern, tried in
order, finds a match in the accumulated text. -/
def KeywordStrategyState.should_interrupt (s : KeywordStrategyState) : Bool :=
  (firstMatch (s.keywords.map splitWs) s.text).isSome

/-- reset: clear the accumulated text. -/
def KeywordStrategyState.reset (s : KeywordStrategyState) : KeywordStrategyState :=
  { s with text := [] }

/-! ### AudioNotifier

src/sync/audio_notifier.py.  Two aspects are modelled.

Volume scaling (_play_audio_sync): the WAV data is read in chunks; when
the clamped volume is below 1.0 each chunk is reinterpreted as an array
of signed 16 bit values (array type h, independently of the sample width
read from the WAV header) and every value is replaced by
int(value * volume), the Python int() conversion truncating toward zero.
Samples are modelled as the integers held by that array.

Task lifecycle (notify): the body of notify() first cancels and awaits a
still running previous playback task and then starts the fresh task with
create_task.  The await is a suspension point of the event loop, so one
notify() call is two separate atomic steps; a playback task can also end
on its own.  NotifierTasks records the fields next fresh task id, the
task referenced by self dot _play_task, and the ids of the playback
tasks currently in flight. -/

/-- Clamp of the volume argument in AudioNotifier.__init__:
max(0.0, min(1.0, volume)). -/
def clampVolume (v : ℚ) : ℚ := max 0 (min 1 v)

/-- Python int() on a rational value: truncation toward zero. -/
def pyIntTrunc (q : ℚ) : ℤ := Int.tdiv q.num (q.den : ℤ)

/-- One scaled sample: int(audio_data[i] * self._volume). -/
def scaleSample (v : ℚ) (s : ℤ) : ℤ := pyIntTrunc ((s : ℚ) * v)

/-- The playback loop of _play_audio_sync: the samples written to the
output stream, chunk by chunk; scaling is applied only when the volume
is below 1.0. -/
def playChunks (v : ℚ) : List (List ℤ) → List ℤ
  | [] => []
  | c :: cs => (if v < 1 then c.map (scaleSample v) else c) ++ playChunks v cs

/-- Playback task bookkeeping of one AudioNotifier instance. -/
structure NotifierTasks where
  next_id : Nat
  play_task : Option Nat
  running : List Nat
deriving DecidableEq

/-- Atomic steps of the event loop affecting one AudioNotifier:
cancelAwait is the first half of notify() (cancel the referenced task if
it is still running and await until it is gone); createTask is the
second half (start the fresh playback task and point self dot _play_task
at it); taskDone t is the playback task t finishing on its own. -/
inductive NotifyEv where
  | cancelAwait
  | createTask
  | taskDone : Nat → NotifyEv
deriving DecidableEq

/-- Effect of one atomic step on the task bookkeeping. -/
def notifyStep : NotifierTasks → NotifyEv → NotifierTasks
  | s, NotifyEv.cancelAwait =>
    match s.play_task with
    | some t => { s with running := s.running.erase t }
    | none => s
  | s, NotifyEv.createTask =>
    ⟨s.next_id + 1, some s.next_id, s.next_id :: s.running⟩
  | s, NotifyEv.taskDone t => { s with running := s.running.erase t }

/-- State after a sequence of atomic steps from a fresh instance
(no playback yet). -/
def runNotifier (evs : List NotifyEv) : NotifierTasks :=
  evs.foldl notifyStep ⟨0, none, []⟩

/-- Serialized operations on one AudioNotifier: a notify() call that runs
to completion before anything else touches the instance, or a playback
finishing. -/
inductive SerialOp where
  | notifyCall
  | playbackDone : Nat → SerialOp
deriving DecidableEq

/-- One serialized operation as its atomic steps. -/
def serialEvents : SerialOp → List NotifyEv
  | SerialOp.notifyCall => [NotifyEv.cancelAwait, NotifyEv.createTask]
  | SerialOp.playbackDone t => [NotifyEv.taskDone t]

/-- Effect of one serialized operation. -/
def serialStep (s : NotifierTasks) (op : SerialOp) : NotifierTasks :=
  (serialEvents op).foldl notifyStep s

/-- State after a sequence of serialized operations from a fresh instance. -/
def runSerial (ops : List SerialOp) : NotifierTasks :=
  ops.foldl serialStep ⟨0, none, []⟩

/-! ### Test scenario constants (section 8 of the design). -/

/-- Wake phrase of scenarios A to D. -/
def heyRobot : String := "hey robot"

/-- Idle phrase of scenarios A and B. -/
def goodbyeWord : String := "goodbye"

/-- Gate of scenario A: wake phrase hey robot, idle phrase goodbye, no
notifiers, no timeout. -/
def scenACfg : Config := ⟨[heyRobot.data], [goodbyeWord.data], false, false, none⟩

/-- Participant record before scenario A: fresh record at time 0. -/
def scenAP : ParticipantState := mkParticipantState 0

/-- Text fed in scenario A. -/
def scenAText : String := "hello hey robot how are"

/-- Event of scenario A. -/
def scenAEv : Event := ⟨scenAText.data, 0⟩

/-- Expected forwarded text of scenario A. -/
def scenAFwd : String := "hey robot how are"

/-- Text fed in scenario B. -/
def scenBText : String := "you goodbye now"

/-- Event of scenario B. -/
def scenBEv : Event := ⟨scenBText.data, 0⟩

/-- Participant record entering scenario B: AWAKE with cleared accumulator. -/
def scenBP : ParticipantState := ⟨WakeState.AWAKE, [], 0⟩

/-! ### Claims about the wake/idle gate. -/

/-- C1: for an IDLE participant, when the appended accumulator matches a
wake pattern (patterns tried in configured order, first matching pattern
wins, which is what firstMatch over wakePatterns computes), the
participant becomes AWAKE with a cleared accumulator; with a wake
notifier configured, the notifier is triggered exactly once and the
stripped text strictly after the matched phrase is forwarded as one
rewritten event iff it is non-empty; without a wake notifier, exactly
one rewritten event is forwarded whose text starts at the match start
offset of the accumulator. -/
theorem wake_transition_spec (cfg : Config) (p : ParticipantState) (ev : Event)
    (s e : Nat) (hst : p.state = WakeState.IDLE)
    (hm : firstMatch (wakePatterns cfg) (p.accumulator ++ ev.text) = some (s, e)) :
    (process_frame cfg noFault p ev).1.state = WakeState.AWAKE ∧
    (process_frame cfg noFault p ev).1.accumulator = [] ∧
    (cfg.has_wake_notifier = true →
      (process_frame cfg noFault p ev).2 =
        Output.notifyWake ::
          (if pyStrip ((p.accumulator ++ ev.text).drop e) = [] then []
           else [Output.pushFrame (pyStrip ((p.accumulator ++ ev.text).drop e))]) ∧
      ((process_frame cfg noFault p ev).2.count Output.notifyWake = 1)) ∧
    (cfg.has_wake_notifier = false →
      (process_frame cfg noFault p ev).2 =
        [Output.pushFrame ((p.accumulator ++ ev.text).drop s)]) := by
  cases hw : cfg.has_wake_notifier
  · simp [process_frame, process_frame_inner, noFault, hst, hm, hw]
  · by_cases hrem : pyStrip ((p.accumulator ++ ev.text).drop e) = [] <;>
      simp [process_frame, process_frame_inner, noFault, hst, hm, hw, hrem]

/-- C1 witness: scenario A. -/
theorem wake_transition_spec_witness :
    (process_frame scenACfg noFault scenAP scenAEv).1.state = WakeState.AWAKE ∧
    (process_frame scenACfg noFault scenAP scenAEv).2 =
      [Output.pushFrame scenAFwd.data] := by
  have h := wake_transition_spec scenACfg scenAP scenAEv 6 15 (by rfl) (by decide)
  refine ⟨h.1, (h.2.2.2 rfl).trans ?_⟩
  decide

/-- C2: for an AWAKE participant, when the appended accumulator matches
an idle pattern, the participant becomes IDLE with a cleared
accumulator; with an idle notifier configured, the notifier is triggered
and nothing is forwarded; without one, the event is forwarded
unmodified. -/
theorem idle_transition_spec (cfg : Config) (p : ParticipantState) (ev : Event)
    (r : Nat × Nat) (hst : p.state = WakeState.AWAKE)
    (hm : firstMatch (idlePatterns cfg) (p.accumulator ++ ev.text) = some r) :
    (process_frame cfg noFault p ev).1.state = WakeState.IDLE ∧
    (process_frame cfg noFault p ev).1.accumulator = [] ∧
    (cfg.has_idle_notifier = true →
      (process_frame cfg noFault p ev).2 = [Output.notifyIdle]) ∧
    (cfg.has_idle_notifier = false →
      (process_frame cfg noFault p ev).2 = [Output.pushFrame ev.text]) := by
  cases hn : cfg.has_idle_notifier <;>
    simp [process_frame, process_frame_inner, noFault, hst, hm, hn]

/-- C2 witness: scenario B, continuing scenario A without notifiers; the
frame containing the idle phrase passes through and the participant
returns to IDLE. -/
theorem idle_transition_spec_witness :
    (process_frame scenACfg noFault scenBP scenBEv).1.state = WakeState.IDLE ∧
    (process_frame scenACfg noFault scenBP scenBEv).1.accumulator = [] ∧
    (process_frame scenACfg noFault scenBP scenBEv).2 =
      [Output.pushFrame scenBText.data] := by
  have h := idle_transition_spec scenACfg scenBP scenBEv (4, 11) (by rfl) (by decide)
  exact ⟨h.1, h.2.1, h.2.2.2 rfl⟩

/-- C3 (amended): after any gate step whose notifier calls return
normally (process_frame under noFault, or a watchdog scan) the
participant record is in exactly one of the two states, the accumulator
is empty whenever the step changed the state, and the accumulator is
not cleared otherwise: a state-preserving process_frame leaves exactly
the old accumulator extended by the event text, and a state-preserving
watchdog scan leaves the record untouched.  The normal-return condition
is needed: a raising wake notifier leaves a transitioned record with an
uncleared accumulator (see the counterexample below). -/
theorem accumulator_invariant (cfg : Config) (p : ParticipantState) (ev : Event)
    (now : ℚ) :
    ((process_frame cfg noFault p ev).1.state = WakeState.IDLE ∨
      (process_frame cfg noFault p ev).1.state = WakeState.AWAKE) ∧
    ¬((process_frame cfg noFault p ev).1.state = WakeState.IDLE ∧
      (process_frame cfg noFault p ev).1.state = WakeState.AWAKE) ∧
    ((process_frame cfg noFault p ev).1.state ≠ p.state →
      (process_frame cfg noFault p ev).1.accumulator = []) ∧
    ((process_frame cfg noFault p ev).1.state = p.state →
      (process_frame cfg noFault p ev).1.accumulator = p.accumulator ++ ev.text) ∧
    ((watchdog_tick cfg now p).1.state ≠ p.state →
      (watchdog_tick cfg now p).1.accumulator = []) ∧
    ((watchdog_tick cfg now p).1.state = p.state →
      (watchdog_tick cfg now p).1 = p) := by
  have hone : (process_frame cfg noFault p ev).1.state = WakeState.IDLE ∨
      (process_frame cfg noFault p ev).1.state = WakeState.AWAKE := by
    cases hs : (process_frame cfg noFault p ev).1.state
    · exact Or.inl rfl
    · exact Or.inr rfl
  have hnotboth : ¬((process_frame cfg noFault p ev).1.state = WakeState.IDLE ∧
      (process_frame cfg noFault p ev).1.state = WakeState.AWAKE) := by
    rintro ⟨h1, h2⟩
    rw [h1] at h2
    exact WakeState.noConfusion h2
  have hproc : ((process_frame cfg noFault p ev).1.state ≠ p.state →
      (process_frame cfg noFault p ev).1.accumulator = []) ∧
      ((process_frame cfg noFault p ev).1.state = p.state →
        (process_frame cfg noFault p ev).1.accumulator = p.accumulator ++ ev.text) := by
    cases hst : p.state
    · rcases hm : firstMatch (wakePatterns cfg) (p.accumulator ++ ev.text) with _ | me
      · simp [process_frame, process_frame_inner, noFault, hst, hm]
      · cases hw : cfg.has_wake_notifier
        · simp [process_frame, process_frame_inner, noFault, hst, hm, hw]
        · by_cases hrem : pyStrip ((p.accumulator ++ ev.text).drop me.2) = [] <;>
            simp [process_frame, process_frame_inner, noFault, hst, hm, hw, hrem]
    · rcases hm : firstMatch (idlePatterns cfg) (p.accumulator ++ ev.text) with _ | r
      · simp [process_frame, process_frame_inner, noFault, hst, hm]
      · cases hn : cfg.has_idle_notifier <;>
          simp [process_frame, process_frame_inner, noFault, hst, hm, hn]
  have hwd : ((watchdog_tick cfg now p).1.state ≠ p.state →
      (watchdog_tick cfg now p).1.accumulator = []) ∧
      ((watchdog_tick cfg now p).1.state = p.state →
        (watchdog_tick cfg now p).1 = p) := by
    rcases ht : cfg.wake_timeout with _ | tmo
    · simp [watchdog_tick, ht]
    · cases hst : p.state
      · simp [watchdog_tick, ht, hst]
      · by_cases hto : now - p.last_activity_time ≥ tmo <;>
          simp [watchdog_tick, ht, hst, hto]
  exact ⟨hone, hnotboth, hproc.1, hproc.2, hwd.1, hwd.2⟩

/-- C3 witness: the wake step of scenario A changes the state, and the
theorem yields the cleared accumulator at that concrete input; a
watchdog scan of the idle scenario A record at time 5 preserves the
record. -/
theorem accumulator_invariant_witness :
    (process_frame scenACfg noFault scenAP scenAEv).1.accumulator = [] ∧
    (watchdog_tick scenACfg 5 scenAP).1 = scenAP := by
  have h := accumulator_invariant scenACfg scenAP scenAEv 5
  exact ⟨h.2.2.1 (by decide), h.2.2.2.2.2 (by decide)⟩

/-- Gate of the C3 counterexample: wake notifier configured. -/
def cfgWakeFaultW : Config := ⟨[heyRobot.data], [goodbyeWord.data], true, false, none⟩

/-- Notifier outcome of the C3 counterexample: the wake notifier raises. -/
def envWakeFaultW : NotifyEnv := ⟨some ("boom").data, none⟩

/-- C3 counterexample: in wake_check_filter.py the state is set to AWAKE
(line 186) before the wake notifier is awaited (line 193) and the
accumulator is cleared only afterwards (line 196), so when the notifier
raises, the except clause leaves the record AWAKE — a transition from
IDLE did happen — with the full accumulator uncleared and non-empty,
refuting the unconditional claim that the accumulator is empty
immediately after every state transition. -/
theorem accumulator_invariant_counterexample :
    (mkParticipantState 0).state = WakeState.IDLE ∧
    (process_frame cfgWakeFaultW envWakeFaultW (mkParticipantState 0)
      ⟨heyRobot.data, 0⟩).1.state = WakeState.AWAKE ∧
    (process_frame cfgWakeFaultW envWakeFaultW (mkParticipantState 0)
      ⟨heyRobot.data, 0⟩).1.accumulator = heyRobot.data ∧
    heyRobot.data ≠ ([] : List Char) := by
  decide

/-- The pattern set process_frame searches in a given state: idle
patterns when AWAKE, wake patterns when IDLE. -/
def activePatterns (cfg : Config) (st : WakeState) : List (List (List Char)) :=
  match st with
  | WakeState.AWAKE => idlePatterns cfg
  | WakeState.IDLE => wakePatterns cfg

/-- Downstream result of a match-free event: pass-through when AWAKE,
nothing when IDLE. -/
def noMatchOutputs (st : WakeState) (t : List Char) : List Output :=
  match st with
  | WakeState.AWAKE => [Output.pushFrame t]
  | WakeState.IDLE => []

/-- C4: when no pattern of the current state matches the appended
accumulator, an AWAKE participant has the event forwarded unmodified
and stays AWAKE, an IDLE participant has the event dropped and stays
IDLE, and in both cases the appended text stays in the accumulator. -/
theorem no_match_spec (cfg : Config) (p : ParticipantState) (ev : Event)
    (h : firstMatch (activePatterns cfg p.state) (p.accumulator ++ ev.text) = none) :
    (process_frame cfg noFault p ev).1.state = p.state ∧
    (process_frame cfg noFault p ev).1.accumulator = p.accumulator ++ ev.text ∧
    (process_frame cfg noFault p ev).2 = noMatchOutputs p.state ev.text := by
  cases hst : p.state <;> rw [hst] at h <;> simp [activePatterns] at h <;>
    simp [process_frame, process_frame_inner, noFault, hst, h, noMatchOutputs]

/-- C4 witness: with the scenario A gate, a match-free event is passed
through unchanged in the AWAKE state and dropped in the IDLE state,
staying in the accumulator both times. -/
theorem no_match_spec_witness :
    (process_frame scenACfg noFault scenBP ⟨('h' :: 'i' :: []), 0⟩).2 =
      [Output.pushFrame ('h' :: 'i' :: [])] ∧
    (process_frame scenACfg noFault scenAP ⟨('h' :: 'i' :: []), 0⟩).2 = [] ∧
    (process_frame scenACfg noFault scenAP ⟨('h' :: 'i' :: []), 0⟩).1.accumulator =
      ('h' :: 'i' :: []) := by
  have ha := no_match_spec scenACfg scenBP ⟨('h' :: 'i' :: []), 0⟩ (by decide)
  have hb := no_match_spec scenACfg scenAP ⟨('h' :: 'i' :: []), 0⟩ (by decide)
  exact ⟨ha.2.2, hb.2.2, hb.2.1⟩

/-- C5: with a wake timeout configured, a watchdog scan at time now
turns every AWAKE participant whose inactivity reached the timeout into
an IDLE participant with cleared accumulator, triggering the idle
notifier exactly once for it when one is configured (and nothing else);
IDLE participants are never modified; and a scan of the participant map
applies exactly this per-participant step to every entry. -/
theorem watchdog_timeout_spec (cfg : Config) (now : ℚ) (p : ParticipantState)
    (tmo : ℚ) (ht : cfg.wake_timeout = some tmo) :
    ((p.state = WakeState.AWAKE ∧ now - p.last_activity_time ≥ tmo) →
      watchdog_tick cfg now p =
        ({ p with state := WakeState.IDLE, accumulator := [] },
         if cfg.has_idle_notifier then [Output.notifyIdle] else []) ∧
      (cfg.has_idle_notifier = true →
        (watchdog_tick cfg now p).2.count Output.notifyIdle = 1)) ∧
    (p.state = WakeState.IDLE → watchdog_tick cfg now p = (p, [])) ∧
    (∀ ps : List (List Char × ParticipantState),
      (watchdog_tick_all cfg now ps).1 =
        ps.map (fun q => (q.1, (watchdog_tick cfg now q.2).1))) := by
  refine ⟨?_, ?_, ?_⟩
  · rintro ⟨hst, hto⟩
    refine ⟨by simp [watchdog_tick, ht, hst, hto], fun hn => ?_⟩
    simp [watchdog_tick, ht, hst, hto, hn]
  · intro hst
    simp [watchdog_tick, ht, hst]
  · intro ps
    induction ps with
    | nil => rfl
    | cons q rest ih => simp [watchdog_tick_all, ih]

/-- Gate of scenario D: wake timeout of two time units and an idle
notifier. -/
def scenDCfg : Config := ⟨[heyRobot.data], [], false, true, some 2⟩

/-- Participant of scenario D: woke at time 0, no activity since. -/
def scenDP : ParticipantState := ⟨WakeState.AWAKE, [], 0⟩

/-- C5 witness: scenario D; at time 2 the watchdog scan alone moves the
participant to IDLE with cleared accumulator and triggers the idle
notifier exactly once. -/
theorem watchdog_timeout_spec_witness :
    watchdog_tick scenDCfg 2 scenDP =
      (⟨WakeState.IDLE, [], 0⟩, [Output.notifyIdle]) ∧
    (watchdog_tick scenDCfg 2 scenDP).2.count Output.notifyIdle = 1 := by
  have h := (watchdog_timeout_spec scenDCfg 2 scenDP 2 rfl).1 ⟨rfl, by simp [scenDP]⟩
  exact ⟨h.1, h.2 rfl⟩

/-- C6: an exception raised anywhere inside the processing of one
transcription event (here: an awaited notifier call failing) is caught
by process_frame and turned into a single pushed error signal carrying
the message; it never escapes to the caller, the participant record as
mutated at the raise point is kept, and the following events of the
sequence are still processed from that record. -/
theorem error_handling_spec (cfg : Config) (env : NotifyEnv)
    (p pE : ParticipantState) (ev : Event) (msg : List Char)
    (h : process_frame_inner cfg env p ev = Except.error (msg, pE)) :
    process_frame cfg env p ev =
      (pE, [Output.pushError (wakeFilterErrText.data ++ msg)]) ∧
    (∀ rest, process_list cfg p ((env, ev) :: rest) =
      ((process_list cfg pE rest).1,
        Output.pushError (wakeFilterErrText.data ++ msg) ::
          (process_list cfg pE rest).2)) := by
  have h1 : process_frame cfg env p ev =
      (pE, [Output.pushError (wakeFilterErrText.data ++ msg)]) := by
    simp [process_frame, h]
  exact ⟨h1, fun rest => by simp [process_list, h1]⟩

/-- Gate used by the C6 witness: idle notifier configured. -/
def cfgErrW : Config := ⟨[heyRobot.data], [goodbyeWord.data], false, true, none⟩

/-- Notifier outcome of the C6 witness: the idle notifier raises. -/
def envErrW : NotifyEnv := ⟨none, some ("boom").data⟩

/-- C6 witness: the idle phrase of scenario B is matched, the idle
notifier raises, and the gate emits exactly one error signal carrying
the message while keeping the transitioned record. -/
theorem error_handling_spec_witness :
    process_frame cfgErrW envErrW scenBP scenBEv =
      (⟨WakeState.IDLE, [], 0⟩,
       [Output.pushError (wakeFilterErrText.data ++ ("boom").data)]) := by
  exact (error_handling_spec cfgErrW envErrW scenBP ⟨WakeState.IDLE, [], 0⟩
    scenBEv ("boom").data (by rfl)).1

/-- Folding append_text only concatenates onto the accumulated text and
keeps the keyword list. -/
theorem foldl_append_text (ts : List (List Char)) (s : KeywordStrategyState) :
    ts.foldl KeywordStrategyState.append_text s = ⟨s.keywords, s.text ++ ts.flatten⟩ := by
  induction ts generalizing s with
  | nil => cases s; simp
  | cons t ts ih =>
    simp only [List.foldl_cons, ih, KeywordStrategyState.append_text, List.flatten,
      List.append_assoc]

/-- The pattern loop finds a match iff some pattern of the list does. -/
theorem firstMatch_isSome_iff (pats : List (List (List Char))) (s : List Char) :
    (firstMatch pats s).isSome = true ↔ ∃ p ∈ pats, (searchPattern p s).isSome = true := by
  induction pats with
  | nil => simp [firstMatch]
  | cons pat pats ih =>
    rcases hp : searchPattern pat s with _ | r <;> simp [firstMatch, hp, ih]

/-- C7: after any sequence of append_text calls on a freshly constructed
KeywordStrategyState, should_interrupt is true iff some configured
keyword phrase matches (with the shared word-boundary, case-insensitive,
whitespace-tolerant pattern semantics of searchPattern, identical to the
wake and idle patterns) anywhere in the concatenation of the appended
texts; and reset returns the strategy to the freshly constructed state
with the same keywords, so afterwards only text appended after the reset
counts. -/
theorem keyword_strategy_spec (kws : List (List Char)) (ts : List (List Char)) :
    ((ts.foldl KeywordStrategyState.append_text
        (KeywordStrategyState.create kws)).should_interrupt = true ↔
      ∃ kw ∈ kws, (searchPattern (splitWs kw) ts.flatten).isSome = true) ∧
    (∀ s : KeywordStrategyState, s.reset = KeywordStrategyState.create s.keywords) := by
  refine ⟨?_, fun s => rfl⟩
  rw [foldl_append_text]
  simp [KeywordStrategyState.should_interrupt, KeywordStrategyState.create,
    firstMatch_isSome_iff]

/-- Interleaving of three notify() calls on one AudioNotifier: call one
runs to completion and starts playback task 0; call two cancels and
awaits task 0 and is suspended at that await; call three starts during
the suspension, sees the referenced task already done, and creates task
1; call two then resumes and creates task 2. -/
def overlapTrace : List NotifyEv :=
  [NotifyEv.cancelAwait, NotifyEv.createTask, NotifyEv.cancelAwait,
   NotifyEv.cancelAwait, NotifyEv.createTask, NotifyEv.createTask]

/-- C8 counterexample: notify() has a suspension point between
cancelling the previous task and creating the new one (the await of the
cancelled task), so overlapping notify() calls leave two playback tasks
in flight at once, refuting the unconditional single-flight claim. -/
theorem notifier_single_flight_counterexample :
    (runNotifier overlapTrace).running = [2, 1] ∧
    ¬(runNotifier overlapTrace).running.length ≤ 1 := by
  decide

/-- Single-flight invariant of the task bookkeeping: no playback task in
flight, or exactly the one referenced by self dot _play_task. -/
def NotifierInv (s : NotifierTasks) : Prop :=
  s.running = [] ∨ ∃ t, s.running = [t] ∧ s.play_task = some t

/-- Every serialized operation preserves the single-flight invariant. -/
theorem notifierInv_serialStep (s : NotifierTasks) (op : SerialOp)
    (h : NotifierInv s) : NotifierInv (serialStep s op) := by
  cases op with
  | notifyCall =>
    rcases h with h | ⟨t, ht, hp⟩
    · rcases hpt : s.play_task with _ | t <;>
        exact Or.inr ⟨s.next_id, by simp [serialStep, serialEvents, notifyStep, hpt, h], by
          simp [serialStep, serialEvents, notifyStep, hpt]⟩
    · exact Or.inr ⟨s.next_id, by simp [serialStep, serialEvents, notifyStep, hp, ht], by
        simp [serialStep, serialEvents, notifyStep, hp]⟩
  | playbackDone u =>
    rcases h with h | ⟨t, ht, hp⟩
    · exact Or.inl (by simp [serialStep, serialEvents, notifyStep, h])
    · by_cases hu : u = t
      · exact Or.inl (by simp [serialStep, serialEvents, notifyStep, ht, hu])
      · have htu : ¬t = u := fun hc => hu hc.symm
        exact Or.inr ⟨t, by simp [serialStep, serialEvents, notifyStep, ht,
          List.erase_cons, htu], by
          simp [serialStep, serialEvents, notifyStep]; exact hp⟩

/-- The single-flight invariant holds after every serialized run. -/
theorem notifierInv_runSerial (ops : List SerialOp) : NotifierInv (runSerial ops) := by
  have : ∀ (l : List SerialOp) (s : NotifierTasks), NotifierInv s →
      NotifierInv (l.foldl serialStep s) := by
    intro l
    induction l with
    | nil => exact fun s h => h
    | cons op l ih => exact fun s h => ih _ (notifierInv_serialStep s op h)
  exact this ops ⟨0, none, []⟩ (Or.inl rfl)

/-- C8 (amended): when notify() calls on one AudioNotifier instance are
serialized (each call completes, including its cancellation await,
before the next operation on the instance begins), at most one playback
task is in flight at any reachable state, and a further notify() call
cancels and awaits the prior playback and leaves exactly the fresh
playback task in flight when it returns, without waiting for it. -/
theorem notifier_single_flight_serialized (ops : List SerialOp) :
    (runSerial ops).running.length ≤ 1 ∧
    (runSerial (ops ++ [SerialOp.notifyCall])).running = [(runSerial ops).next_id] := by
  have hinv := notifierInv_runSerial ops
  constructor
  · rcases hinv with h | ⟨t, ht, _⟩
    · simp [h]
    · simp [ht]
  · have happ : runSerial (ops ++ [SerialOp.notifyCall]) =
        serialStep (runSerial ops) SerialOp.notifyCall := by
      simp [runSerial, List.foldl_append, serialStep]
    rw [happ]
    rcases hinv with h | ⟨t, ht, hp⟩
    · rcases hpt : (runSerial ops).play_task with _ | t <;>
        simp [serialStep, serialEvents, notifyStep, hpt, h]
    · simp [serialStep, serialEvents, notifyStep, hp, ht]

/-- Clamping the volume one half is the identity. -/
theorem clampVolume_half : clampVolume (1 / 2) = 1 / 2 := by
  unfold clampVolume
  rw [min_eq_right (by norm_num), max_eq_right (by norm_num)]

/-- Scaling the sample 3 by volume one half truncates 3/2 to 1. -/
theorem scaleSample_half_three : scaleSample (1 / 2) 3 = 1 := by
  unfold scaleSample pyIntTrunc
  have h : ((3 : ℤ) : ℚ) * (1 / 2) = 3 / 2 := by norm_num
  rw [h]
  have hn : (3 / 2 : ℚ).num = 3 := by norm_num
  have hd : (3 / 2 : ℚ).den = 2 := by norm_num
  rw [hn, hd]
  decide

/-- Playback of the single sample 3 at volume one half writes 1. -/
theorem playChunks_half_three : playChunks (clampVolume (1 / 2)) [[3]] = [1] := by
  rw [clampVolume_half]
  simp only [playChunks, if_pos (by norm_num : (1 / 2 : ℚ) < 1), List.map,
    scaleSample_half_three, List.append_nil]

/-- C9 counterexample: with volume one half (already in the clamped
range) and one chunk holding the single 16 bit sample 3, the value
written is 1, which is not the product of the amplitude and the volume
factor (3/2): Python int() truncates the scaled sample. -/
theorem volume_scaling_counterexample :
    playChunks (clampVolume (1 / 2)) [[3]] = [1] ∧
    ((1 : ℚ) ≠ (3 : ℚ) * clampVolume (1 / 2)) := by
  refine ⟨playChunks_half_three, ?_⟩
  rw [clampVolume_half]
  norm_num

/-- Chunking is irrelevant to the written stream: playback equals the
scaling map over the flattened sample stream. -/
theorem playChunks_eq_map (v : ℚ) (chunks : List (List ℤ)) :
    playChunks v chunks =
      if v < 1 then chunks.flatten.map (scaleSample v) else chunks.flatten := by
  induction chunks with
  | nil => by_cases h : v < 1 <;> simp [playChunks, h]
  | cons c cs ih => by_cases h : v < 1 <;> simp [playChunks, h, ih]

/-- C9 (amended): the volume factor actually used is the constructor
argument clamped to the unit interval; every value written during
playback is the sample at the same position of the (16 bit) sample
stream scaled by int(sample * volume), the truncated product, when the
clamped volume is below one, and the unchanged sample otherwise. -/
theorem volume_scaling_amended (v : ℚ) (chunks : List (List ℤ)) (i : ℕ) (s : ℤ)
    (h : (playChunks (clampVolume v) chunks)[i]? = some s) :
    (0 ≤ clampVolume v ∧ clampVolume v ≤ 1) ∧
    ∃ s0, chunks.flatten[i]? = some s0 ∧
      s = (if clampVolume v < 1 then scaleSample (clampVolume v) s0 else s0) := by
  refine ⟨⟨le_max_left 0 _, max_le (by norm_num) (min_le_left 1 v)⟩, ?_⟩
  rw [playChunks_eq_map] at h
  by_cases hv : clampVolume v < 1
  · rw [if_pos hv] at h
    rw [List.getElem?_map] at h
    rcases hj : chunks.flatten[i]? with _ | s0
    · rw [hj] at h; exact absurd h (by simp)
    · rw [hj] at h
      exact ⟨s0, rfl, by simpa [hv] using h.symm⟩
  · rw [if_neg hv] at h
    exact ⟨s, h, by simp [hv]⟩

/-- C9 witness: volume one half on the single sample 3 gives the
truncated product 1. -/
theorem volume_scaling_amended_witness :
    (0 ≤ clampVolume (1 / 2) ∧ clampVolume (1 / 2) ≤ 1) ∧
    ∃ s0, (([[(3 : ℤ)]] : List (List ℤ)).flatten)[0]? = some s0 ∧
      (1 : ℤ) = (if clampVolume (1 / 2) < 1 then scaleSample (clampVolume (1 / 2)) s0
        else s0) := by
  exact volume_scaling_amended (1 / 2) [[3]] 0 1 (by rw [playChunks_half_three]; rfl)

/-- C10: the zero-or-more-whitespace separator of the compiled patterns
also matches when the words of a multi-word phrase are separated by no
whitespace at all: the pattern for hey robot matches heyrobot, for the
gate in the IDLE state (wake patterns), for the gate in the AWAKE state
(idle patterns) and for the keyword strategy alike. -/
theorem no_whitespace_phrase_matches :
    searchPattern (splitWs heyRobot.data) ("heyrobot").data = some (0, 8) ∧
    (process_frame ⟨[heyRobot.data], [goodbyeWord.data], false, false, none⟩ noFault
      (mkParticipantState 0) ⟨("heyrobot").data, 0⟩).1.state = WakeState.AWAKE ∧
    (process_frame ⟨[goodbyeWord.data], [heyRobot.data], false, false, none⟩ noFault
      ⟨WakeState.AWAKE, [], 0⟩ ⟨("heyrobot").data, 0⟩).1.state = WakeState.IDLE ∧
    (KeywordStrategyState.should_interrupt
      ((KeywordStrategyState.create [heyRobot.data]).append_text ("heyrobot").data))
      = true := by
  decide

end Qarobo
